import Mathlib

/-!
# Verification of the KitaKits messenger-bot command engine

Shallow embedding of `src/KitaKits.py` (class `FacebookMessengerBot`).

Modelling conventions:
* The SQLite tables become lists of records inside a `DB` structure; every
  SQL statement of the source is translated row-for-row (SELECT = `find?`
  or `filter`, INSERT = append, UPDATE = `map` guarded by the WHERE clause).
  Schema columns that no modeled operation ever reads or writes
  (`users.created_at`, `users.is_authenticated`, `items.created_at` is kept,
  `user_sessions.session_token` is kept) are noted at each structure.
* `CURRENT_TIMESTAMP` / `datetime.now()` become an explicit `now : Nat`
  parameter (seconds); `timedelta(hours=24)` is `86400`.
* `werkzeug.generate_password_hash` / `check_password_hash` are modeled by a
  tagged injective encoding: `check` succeeds exactly when the password
  matches the one that produced the hash, which is the contract the source
  relies on.
* External effects (spreadsheet creation, the outbound Facebook POST, the
  process logger) are modeled as data: an `Env` carries the outcomes the
  outside world would produce (does report generation raise? is the HTTP
  status of the file POST 200?), and `process_command` returns the trace of
  reports generated, files whose delivery was attempted, and logger error
  lines, alongside the reply string and the successor database.
  In the source, `send_file` checks `response.status_code != 200` and only
  writes a logger error in that case — it returns normally either way, so a
  failed delivery never raises into `process_command`'s `except` clause.
  A raising `generate_statistics_report` is modeled by `Env.report_gen_ok`.
-/

set_option maxRecDepth 4000

namespace KitaKits

/-! ### Python string primitives

The string operations the source uses (`str.strip`, `str.startswith`,
`str.endswith`, `s[1:-1]`, `str.lower`) are modeled directly on the
character list of the string, structurally recursive so that the kernel can
evaluate them on concrete inputs. The inputs the bot manipulates are ASCII
command text. -/

/-- Python `str.strip()`: remove leading and trailing whitespace. -/
def py_strip (s : String) : String :=
  ⟨(((s.data.dropWhile Char.isWhitespace).reverse.dropWhile Char.isWhitespace).reverse)⟩

/-- Python `s.startswith(c)` for a one-character pattern. -/
def starts_with (s : String) (c : Char) : Bool :=
  s.data.head? == some c

/-- Python `s.endswith(c)` for a one-character pattern. -/
def ends_with (s : String) (c : Char) : Bool :=
  s.data.getLast? == some c

/-- Python `s[1:-1]`: drop the first and the last character. -/
def inner_slice (s : String) : String :=
  ⟨(s.data.drop 1).dropLast⟩

/-- ASCII lower-casing of one character. -/
def ascii_lower (c : Char) : Char :=
  if 65 ≤ c.toNat ∧ c.toNat ≤ 90 then Char.ofNat (c.toNat + 32) else c

/-- Python `str.lower()` on ASCII command text. -/
def py_lower (s : String) : String :=
  ⟨s.data.map ascii_lower⟩

/-- Row of the `users` table. The schema also declares `created_at` and an
`is_authenticated INTEGER DEFAULT 0` column, but no operation of the source
ever reads or writes them, so they are omitted here. -/
structure User where
  facebook_id : String
  username : String
  password_hash : String
  last_login : Option Nat
  deriving Repr, DecidableEq

/-- Row of the `items` table. -/
structure Item where
  item_id : String
  name : String
  count : Int
  created_at : Nat
  updated_at : Nat
  deriving Repr, DecidableEq

/-- Row of the `command_logs` table (an AuditRecord). -/
structure AuditRecord where
  facebook_id : String
  command : String
  parameters : Option String
  success : Bool
  error_message : Option String
  timestamp : Nat
  deriving Repr, DecidableEq

/-- Row of the `user_sessions` table. -/
structure Session where
  facebook_id : String
  session_token : String
  expires_at : Nat
  created_at : Nat
  deriving Repr, DecidableEq

/-- The four tables of `messenger_bot.db`. -/
structure DB where
  users : List User
  items : List Item
  command_logs : List AuditRecord
  user_sessions : List Session
  deriving Repr, DecidableEq

/-- Outcomes supplied by the outside world for one `process_command` call. -/
structure Env where
  /-- `generate_statistics_report` completes without raising. -/
  report_gen_ok : Bool
  /-- `str(e)` of the exception when report generation raises. -/
  report_error_msg : String
  /-- the `requests.post` of `send_file` returned status 200. -/
  delivery_ok : Bool
  /-- `response.text` of a failed delivery POST. -/
  delivery_error_text : String
  deriving Repr, DecidableEq

/-- Reply plus successor state plus externally visible effect traces of one
`process_command` call. -/
structure CmdResult where
  reply : String
  db : DB
  /-- file paths produced by `generate_statistics_report` -/
  reports : List String
  /-- `(recipient, path)` of every `send_file` attempt -/
  sent_files : List (String × String)
  /-- lines written via `logger.error` -/
  logger_errors : List String
  deriving Repr, DecidableEq

/-- Model of `werkzeug.generate_password_hash`: a tagged encoding that keeps
the verification contract (`check` succeeds iff the password matches). -/
def generate_password_hash (password : String) : String :=
  "pbkdf2:" ++ password

/-- Model of `werkzeug.check_password_hash`. -/
def check_password_hash (hash password : String) : Bool :=
  hash == generate_password_hash password

/-- `hashlib.sha256(f"{facebook_id}{datetime.now()}").hexdigest()`, the
session token of `authenticate_user`; modeled as a tagged encoding of the
same input material. -/
def session_token_of (facebook_id : String) (now : Nat) : String :=
  "sha256:" ++ facebook_id ++ ":" ++ toString now

/-- `timedelta(hours=24)` in seconds. -/
def SESSION_DURATION : Nat := 86400

/-- `init_database`: creates the tables and seeds the `admin` user (password
`admin123`, facebook id `admin_fb_id`) when no user named `admin` exists. -/
def init_database (db : DB) : DB :=
  if db.users.any (fun u => u.username == "admin") then db
  else { db with users :=
          db.users ++ [⟨"admin_fb_id", "admin", generate_password_hash "admin123", none⟩] }

/-- The freshly initialized database. -/
def initDB : DB := init_database ⟨[], [], [], []⟩

/-- `log_command`: INSERT one row into `command_logs`. -/
def log_command (db : DB) (facebook_id command : String) (parameters : Option String)
    (success : Bool) (error_message : Option String) (now : Nat) : DB :=
  { db with command_logs :=
      db.command_logs ++ [⟨facebook_id, command, parameters, success, error_message, now⟩] }

/-- `is_user_authenticated`: the SELECT joins `user_sessions` with `users` on
`facebook_id`, keeps rows with the given id and `expires_at > now`, and tests
whether the result is nonempty (the `ORDER BY ... LIMIT 1` of the source only
picks which row is returned; the function just checks existence). -/
def is_user_authenticated (db : DB) (facebook_id : String) (now : Nat) : Bool :=
  db.user_sessions.any (fun s =>
    s.facebook_id == facebook_id && decide (now < s.expires_at)
      && db.users.any (fun u => u.facebook_id == s.facebook_id))

/-- `authenticate_user`: look the username up; on a missing row or a hash
mismatch return `(False, "Invalid credentials")` with the database untouched;
otherwise rebind the username's row to the caller's facebook id, stamp
`last_login`, and INSERT a 24-hour session. -/
def authenticate_user (db : DB) (facebook_id username password : String) (now : Nat) :
    Bool × String × DB :=
  match db.users.find? (fun u => u.username == username) with
  | none => (false, "Invalid credentials", db)
  | some u =>
    if !check_password_hash u.password_hash password then
      (false, "Invalid credentials", db)
    else
      (true, "Authentication successful",
        { db with
          users := db.users.map (fun v =>
            if v.username == username then
              { v with facebook_id := facebook_id, last_login := some now }
            else v),
          user_sessions := db.user_sessions ++
            [⟨facebook_id, session_token_of facebook_id now, now + SESSION_DURATION, now⟩] })

/-- `get_item_count`: SELECT count FROM items WHERE item_id = ?. -/
def get_item_count (db : DB) (item_id : String) : Option Int :=
  (db.items.find? (fun it => it.item_id == item_id)).map (fun it => it.count)

/-- `modify_item_count`: on an unseen item INSERT it with count 1 for `add`
and 0 otherwise (the `amount` argument is ignored on creation, as in the
source); on an existing item set the count to `current + amount` for `add`
and `max 0 (current - amount)` otherwise, updating `updated_at`. -/
def modify_item_count (db : DB) (item_id operation : String) (amount : Int) (now : Nat) :
    Bool × String × Int × DB :=
  match db.items.find? (fun it => it.item_id == item_id) with
  | none =>
    let c : Int := if operation == "add" then 1 else 0
    (true, "Item " ++ item_id ++ " " ++ operation ++ "ed successfully", c,
      { db with items := db.items ++ [⟨item_id, item_id, c, now, now⟩] })
  | some it =>
    let n : Int := if operation == "add" then it.count + amount
                   else max 0 (it.count - amount)
    (true, "Item " ++ item_id ++ " " ++ operation ++ "ed successfully", n,
      { db with items := db.items.map (fun j =>
          if j.item_id == item_id then { j with count := n, updated_at := now } else j) })

/-- The deterministic timestamp-suffixed path `generate_statistics_report`
writes under the reports directory. -/
def report_filepath (now : Nat) : String :=
  "reports/statistics_report_" ++ toString now ++ ".xlsx"

/-- `send_file`: attempts the outbound POST and, when the response status is
not 200, writes one logger error line and returns normally. Result: the
attempted `(recipient, path)` pair and the logger lines produced. -/
def send_file (env : Env) (recipient_id file_path : String) :
    (String × String) × List String :=
  ((recipient_id, file_path),
   if env.delivery_ok then []
   else ["Failed to send file: " ++ env.delivery_error_text])

/-- The help text returned for `[help]`. -/
def helpText : String :=
  "Available commands:\n[help] - Show this help message\n[username] [password] - Login (e.g., [admin] [admin123])\n[itemID] - Set target item for operations\n[add] - Add 1 to current item count\n[subtract] - Subtract 1 from current item count\n[count] - Get current count for item\n[statistics] - Generate and send Excel report\n\nNote: You must be authenticated to use commands other than [help]."

/-- `process_command`, the interpreter entry point. Branch order follows the
source: `[help]` first; then the login block, entered exactly when the
(stripped) text is bracketed and the sender is not authenticated — it always
returns, with or without success; then the authentication gate, which at that
point can only fire for non-bracketed text; then the keyword dispatch for
authenticated bracketed commands; finally the unknown-command fallthrough. -/
def process_command (db : DB) (env : Env) (facebook_id raw_text : String) (now : Nat) :
    CmdResult :=
  let message_text := py_strip raw_text
  if message_text == "[help]" then
    ⟨helpText, log_command db facebook_id "help" none true none now, [], [], []⟩
  else if starts_with message_text '[' && ends_with message_text ']'
          && !is_user_authenticated db facebook_id now then
    let content := inner_slice message_text
    let res := authenticate_user db facebook_id content content now
    if res.1 then
      ⟨res.2.1, log_command res.2.2 facebook_id "login" (some content) true none now,
       [], [], []⟩
    else
      ⟨"Please authenticate first. Use [username] followed by [password] or use [help] for instructions.",
       res.2.2, [], [], []⟩
  else if !is_user_authenticated db facebook_id now then
    ⟨"You must be authenticated to use this command. Please login first.", db, [], [], []⟩
  else if starts_with message_text '[' && ends_with message_text ']' then
    let command := py_lower (inner_slice message_text)
    if command == "statistics" then
      if env.report_gen_ok then
        let path := report_filepath now
        let sent := send_file env facebook_id path
        ⟨"Statistics report generated and sent!",
         log_command db facebook_id "statistics" none true none now,
         [path], [sent.1], sent.2⟩
      else
        ⟨"Error generating report: " ++ env.report_error_msg,
         log_command db facebook_id "statistics" none false (some env.report_error_msg) now,
         [], [], []⟩
    else if command == "add" then
      let res := modify_item_count db "default_item" "add" 1 now
      ⟨res.2.1 ++ ". New count: " ++ toString res.2.2.1,
       log_command res.2.2.2 facebook_id "add" (some "default_item") res.1 none now,
       [], [], []⟩
    else if command == "subtract" then
      let res := modify_item_count db "default_item" "subtract" 1 now
      ⟨res.2.1 ++ ". New count: " ++ toString res.2.2.1,
       log_command res.2.2.2 facebook_id "subtract" (some "default_item") res.1 none now,
       [], [], []⟩
    else if command == "count" then
      let c := (get_item_count db "default_item").getD 0
      ⟨"Current count for default_item: " ++ toString c,
       log_command db facebook_id "count" (some "default_item") true none now,
       [], [], []⟩
    else
      ⟨"Item \x27" ++ command ++ "\x27 selected. Use [add], [subtract], or [count] to interact with it.",
       log_command db facebook_id "set_item" (some command) true none now,
       [], [], []⟩
  else
    ⟨"Unknown command. Use [help] to see available commands.",
     log_command db facebook_id "unknown" (some message_text) false (some "Unknown command") now,
     [], [], []⟩

/-- Default environment: report generation succeeds, delivery succeeds. -/
def defaultEnv : Env := ⟨true, "", true, ""⟩

/-! ### Helper lemmas: which tables each operation touches -/

theorem log_command_users (db : DB) (fb c : String) (p : Option String) (s : Bool)
    (e : Option String) (now : Nat) : (log_command db fb c p s e now).users = db.users := rfl

theorem log_command_items (db : DB) (fb c : String) (p : Option String) (s : Bool)
    (e : Option String) (now : Nat) : (log_command db fb c p s e now).items = db.items := rfl

theorem log_command_sessions (db : DB) (fb c : String) (p : Option String) (s : Bool)
    (e : Option String) (now : Nat) :
    (log_command db fb c p s e now).user_sessions = db.user_sessions := rfl

theorem log_command_logs (db : DB) (fb c : String) (p : Option String) (s : Bool)
    (e : Option String) (now : Nat) :
    (log_command db fb c p s e now).command_logs =
      db.command_logs ++ [⟨fb, c, p, s, e, now⟩] := rfl

theorem authenticate_user_logs (db : DB) (fb u p : String) (now : Nat) :
    ((authenticate_user db fb u p now).2.2).command_logs = db.command_logs := by
  unfold authenticate_user
  cases hf : db.users.find? (fun v => v.username == u) with
  | none => rfl
  | some w => by_cases hc : check_password_hash w.password_hash p <;> simp [hc]

theorem authenticate_user_items (db : DB) (fb u p : String) (now : Nat) :
    ((authenticate_user db fb u p now).2.2).items = db.items := by
  unfold authenticate_user
  cases hf : db.users.find? (fun v => v.username == u) with
  | none => rfl
  | some w => by_cases hc : check_password_hash w.password_hash p <;> simp [hc]

theorem modify_item_count_logs (db : DB) (id op : String) (a : Int) (now : Nat) :
    ((modify_item_count db id op a now).2.2.2).command_logs = db.command_logs := by
  unfold modify_item_count
  cases hf : db.items.find? (fun it => it.item_id == id) <;> simp

theorem modify_item_count_users (db : DB) (id op : String) (a : Int) (now : Nat) :
    ((modify_item_count db id op a now).2.2.2).users = db.users := by
  unfold modify_item_count
  cases hf : db.items.find? (fun it => it.item_id == id) <;> simp

theorem modify_item_count_sessions (db : DB) (id op : String) (a : Int) (now : Nat) :
    ((modify_item_count db id op a now).2.2.2).user_sessions = db.user_sessions := by
  unfold modify_item_count
  cases hf : db.items.find? (fun it => it.item_id == id) <;> simp

/-- `is_user_authenticated` reads only the `users` and `user_sessions` tables. -/
theorem is_user_authenticated_congr (db₁ db₂ : DB) (fb : String) (now : Nat)
    (hu : db₁.users = db₂.users) (hs : db₁.user_sessions = db₂.user_sessions) :
    is_user_authenticated db₁ fb now = is_user_authenticated db₂ fb now := by
  unfold is_user_authenticated
  rw [hu, hs]

/-- Updating the matching row of the `items` table is visible to a subsequent
lookup: the found row reappears with the new `count` and `updated_at`. -/
theorem find?_map_update (l : List Item) (id : String) (n : Int) (now : Nat) (it : Item)
    (h : l.find? (fun x => x.item_id == id) = some it) :
    (l.map (fun j => if j.item_id == id then { j with count := n, updated_at := now }
                     else j)).find? (fun x => x.item_id == id) =
      some { it with count := n, updated_at := now } := by
  induction l with
  | nil => simp at h
  | cons a l ih =>
    simp only [List.map_cons]
    by_cases ha : (a.item_id == id) = true
    · rw [List.find?_cons_of_pos (p := fun (x : Item) => x.item_id == id) _ ha] at h
      injection h with h
      subst h
      have hup : (({ a with count := n, updated_at := now } : Item).item_id == id) = true := by
        simpa using ha
      rw [if_pos ha, List.find?_cons_of_pos (p := fun (x : Item) => x.item_id == id) _ hup]
    · rw [List.find?_cons_of_neg (p := fun (x : Item) => x.item_id == id) _ ha] at h
      rw [if_neg ha, List.find?_cons_of_neg (p := fun (x : Item) => x.item_id == id) _ ha]
      exact ih h

/-! ### Claims -/

/-- C5: `modify_item_count` postcondition. For an existing item with count
`c` the stored count becomes `c + amount` on `add` and `max 0 (c - amount)`
otherwise; an unseen item is created with count 1 on `add` and 0 otherwise
(the `amount` argument is ignored on creation, exactly as the source does);
the new count is what a subsequent lookup returns, and nonnegativity of all
stored counts is preserved, so a count never becomes negative. -/
theorem C5_modify_item_count_spec (db : DB) (item_id operation : String) (amount : Int)
    (now : Nat) (hamt : 0 ≤ amount) :
    (modify_item_count db item_id operation amount now).1 = true ∧
    (modify_item_count db item_id operation amount now).2.2.1 =
      (match get_item_count db item_id with
       | some c => if operation == "add" then c + amount else max 0 (c - amount)
       | none => if operation == "add" then 1 else 0) ∧
    get_item_count (modify_item_count db item_id operation amount now).2.2.2 item_id =
      some ((modify_item_count db item_id operation amount now).2.2.1) ∧
    ((∀ it ∈ db.items, 0 ≤ it.count) →
      ∀ it ∈ (modify_item_count db item_id operation amount now).2.2.2.items, 0 ≤ it.count) := by
  unfold modify_item_count get_item_count
  cases hf : db.items.find? (fun it => it.item_id == item_id) with
  | none =>
    simp only [hf, Option.map_none]
    refine ⟨by trivial, by trivial, ?_, ?_⟩
    · rw [List.find?_append, hf]
      simp
    · intro h0 it hit
      rcases List.mem_append.1 hit with hmem | hmem
      · exact h0 it hmem
      · simp only [List.mem_singleton] at hmem
        subst hmem
        by_cases hop : (operation == "add") = true <;> simp [hop]
  | some w =>
    simp only [hf, Option.map_some]
    refine ⟨by trivial, by trivial, ?_, ?_⟩
    · rw [find?_map_update _ _ _ _ _ hf]
      simp
    · intro h0 it hit
      rcases List.mem_map.1 hit with ⟨j, hj, rfl⟩
      by_cases hx : (j.item_id == item_id) = true
      · simp only [hx, if_pos]
        have hw : 0 ≤ w.count := h0 w (List.mem_of_find?_eq_some hf)
        by_cases hop : (operation == "add") = true
        · simpa [hop] using add_nonneg hw hamt
        · simp [hop, le_max_iff]
      · simpa [hx] using h0 j hj

/-- C5 witness: a decrement on an absent `default_item` creates it with
count 0, and the count stays nonnegative. -/
theorem C5_witness :
    (0 : Int) ≤ 1 ∧
    ((modify_item_count initDB "default_item" "subtract" 1 0).1 = true ∧
     (modify_item_count initDB "default_item" "subtract" 1 0).2.2.1 =
       (match get_item_count initDB "default_item" with
        | some c => if "subtract" == "add" then c + 1 else max 0 (c - 1)
        | none => if "subtract" == "add" then 1 else 0) ∧
     get_item_count (modify_item_count initDB "default_item" "subtract" 1 0).2.2.2
         "default_item" =
       some ((modify_item_count initDB "default_item" "subtract" 1 0).2.2.1) ∧
     ((∀ it ∈ initDB.items, 0 ≤ it.count) →
       ∀ it ∈ (modify_item_count initDB "default_item" "subtract" 1 0).2.2.2.items,
         0 ≤ it.count)) :=
  ⟨by decide, C5_modify_item_count_spec initDB "default_item" "subtract" 1 0 (by decide)⟩

/-- C6: an unknown username and a known username with a mismatching password
produce the very same result triple `(false, "Invalid credentials", db)`:
the caller cannot tell which field was wrong, and the database is untouched
in both cases. -/
theorem C6_failure_indistinguishable (db : DB) (fb username password : String) (now : Nat) :
    (db.users.find? (fun u => u.username == username) = none →
      authenticate_user db fb username password now = (false, "Invalid credentials", db)) ∧
    (∀ w, db.users.find? (fun u => u.username == username) = some w →
      check_password_hash w.password_hash password = false →
      authenticate_user db fb username password now = (false, "Invalid credentials", db)) := by
  constructor
  · intro h
    unfold authenticate_user
    rw [h]
  · intro w hw hc
    unfold authenticate_user
    rw [hw]
    simp [hc]

/-- C6 witness: on the freshly initialized store, the unknown username
`nobody` and the known username `admin` with the wrong password `wrong`
return the identical generic failure. -/
theorem C6_witness :
    authenticate_user initDB "fbX" "nobody" "pw" 0 = (false, "Invalid credentials", initDB) ∧
    authenticate_user initDB "fbX" "admin" "wrong" 0 = (false, "Invalid credentials", initDB) :=
  ⟨(C6_failure_indistinguishable initDB "fbX" "nobody" "pw" 0).1 (by decide),
   (C6_failure_indistinguishable initDB "fbX" "admin" "wrong" 0).2
     ⟨"admin_fb_id", "admin", generate_password_hash "admin123", none⟩ (by decide) (by decide)⟩

/-- C9: failed authentication is atomic — whenever `authenticate_user`
returns `false`, the returned database is the input database: no session row
is inserted and no user row (external-id binding, last-login stamp) is
modified. -/
theorem C9_failed_auth_atomic (db : DB) (fb username password : String) (now : Nat)
    (h : (authenticate_user db fb username password now).1 = false) :
    (authenticate_user db fb username password now).2.2 = db := by
  unfold authenticate_user at h ⊢
  cases hf : db.users.find? (fun u => u.username == username) with
  | none => rfl
  | some w =>
    rw [hf] at h
    by_cases hc : check_password_hash w.password_hash password
    · simp [hc] at h
    · simp [hc]

/-- C9 witness: the failed login of `admin` with the wrong password leaves
the database unchanged. -/
theorem C9_witness :
    (authenticate_user initDB "fbX" "admin" "wrong" 0).1 = false ∧
    (authenticate_user initDB "fbX" "admin" "wrong" 0).2.2 = initDB :=
  ⟨by decide, C9_failed_auth_atomic initDB "fbX" "admin" "wrong" 0 (by decide)⟩

/-- State reached from the fresh store after the identity `fbX` logs in as
`admin` (correct password) at time 0: the admin row is rebound to `fbX` and a
session expiring at 86400 is inserted. -/
def dbX : DB := (authenticate_user initDB "fbX" "admin" "admin123" 0).2.2

/-- State reached from `dbX` after a second identity `fbY` logs in as the
same username `admin` at time 10: the admin row is rebound to `fbY`; the
unexpired session of `fbX` remains stored. -/
def dbXY : DB := (authenticate_user dbX "fbY" "admin" "admin123" 10).2.2

/-- C2 counterexample: both logins succeed, so a session was issued to `fbX`
at time T = 0 with duration D = 86400 and it is still stored unexpired; the
check time 20 satisfies T ≤ 20 < T + D, yet `is_user_authenticated` returns
`false` for `fbX` — the claim that the result is true throughout the window
regardless of intervening operations on other tables is refuted: the SELECT
joins on the `users` table, and the second login rebound the username's
external id. -/
theorem C2_counterexample :
    (authenticate_user initDB "fbX" "admin" "admin123" 0).1 = true ∧
    (authenticate_user dbX "fbY" "admin" "admin123" 10).1 = true ∧
    dbXY.user_sessions.filter (fun s => s.facebook_id == "fbX") =
      [⟨"fbX", session_token_of "fbX" 0, 0 + SESSION_DURATION, 0⟩] ∧
    (0 ≤ 20 ∧ 20 < 0 + SESSION_DURATION) ∧
    is_user_authenticated dbXY "fbX" 20 = false := by
  refine ⟨by decide, by decide, by decide, ⟨by decide, by decide⟩, by decide⟩

/-- C2 amended: after a successful `authenticate_user` call at time T, the
sender is authenticated at every check time T' with T ≤ T' < T + 86400 and —
provided every one of their stored sessions has expired by T' — not
authenticated for T' ≥ T + 86400; but validity is NOT a function of the
sessions table and the clock alone: it also requires that some `users` row
still carries the sender's external id (the SELECT joins the two tables), so
a later login rebinding the username's external id deauthenticates the
sender before expiry. -/
theorem C2_amended_session_validity (db : DB) (fb u p : String) (T : Nat)
    (hsucc : (authenticate_user db fb u p T).1 = true) :
    (∀ Tq, T ≤ Tq → Tq < T + SESSION_DURATION →
        is_user_authenticated (authenticate_user db fb u p T).2.2 fb Tq = true) ∧
    (∀ Tq, T + SESSION_DURATION ≤ Tq →
        (∀ s ∈ db.user_sessions, s.facebook_id = fb → s.expires_at ≤ Tq) →
        is_user_authenticated (authenticate_user db fb u p T).2.2 fb Tq = false) ∧
    (∀ (db₂ : DB) (Tq : Nat),
        db₂.user_sessions = (authenticate_user db fb u p T).2.2.user_sessions →
        (∀ w ∈ db₂.users, w.facebook_id ≠ fb) →
        is_user_authenticated db₂ fb Tq = false) := by
  obtain ⟨w, hf, hc⟩ :
      ∃ w, db.users.find? (fun v => v.username == u) = some w ∧
        check_password_hash w.password_hash p = true := by
    unfold authenticate_user at hsucc
    cases hf : db.users.find? (fun v => v.username == u) with
    | none => rw [hf] at hsucc; simp at hsucc
    | some w =>
      rw [hf] at hsucc
      by_cases hcq : check_password_hash w.password_hash p
      · exact ⟨w, rfl, hcq⟩
      · simp [hcq] at hsucc
  have hwu : (w.username == u) = true :=
    List.find?_some (p := fun (v : User) => v.username == u) hf
  have hdb : (authenticate_user db fb u p T).2.2 =
      { db with
        users := db.users.map (fun v =>
          if v.username == u then { v with facebook_id := fb, last_login := some T } else v),
        user_sessions := db.user_sessions ++
          [⟨fb, session_token_of fb T, T + SESSION_DURATION, T⟩] } := by
    unfold authenticate_user
    rw [hf]
    simp [hc]
  rw [hdb]
  refine ⟨?_, ?_, ?_⟩
  · intro Tq _ hTq
    unfold is_user_authenticated
    rw [List.any_eq_true]
    refine ⟨⟨fb, session_token_of fb T, T + SESSION_DURATION, T⟩,
      List.mem_append_right _ (List.mem_singleton.2 rfl), ?_⟩
    simp only [Bool.and_eq_true, decide_eq_true_eq]
    refine ⟨⟨by simp, hTq⟩, ?_⟩
    rw [List.any_eq_true]
    refine ⟨{ w with facebook_id := fb, last_login := some T }, ?_, by simp⟩
    have hwmem : w ∈ db.users := List.mem_of_find?_eq_some hf
    have heq : ({ w with facebook_id := fb, last_login := some T } : User) =
        (fun v => if v.username == u then { v with facebook_id := fb, last_login := some T }
                  else v) w := by
      simp [hwu]
    rw [heq]
    exact List.mem_map_of_mem _ hwmem
  · intro Tq hTq hold
    unfold is_user_authenticated
    rw [List.any_eq_false]
    intro s hs
    rcases List.mem_append.1 hs with hmem | hmem
    · by_cases hid : (s.facebook_id == fb) = true
      · have : s.expires_at ≤ Tq := hold s hmem (by simpa using hid)
        simp [hid, Nat.not_lt.2 this]
      · simp [hid]
    · simp only [List.mem_singleton] at hmem
      subst hmem
      simp [Nat.not_lt.2 hTq]
  · intro db₂ Tq hsess husers
    unfold is_user_authenticated
    rw [List.any_eq_false]
    intro s hs
    by_cases hid : (s.facebook_id == fb) = true
    · have : db₂.users.any (fun v => v.facebook_id == s.facebook_id) = false := by
        rw [List.any_eq_false]
        intro v hv
        have hvfb : v.facebook_id ≠ fb := husers v hv
        simp only [beq_iff_eq]
        rw [show s.facebook_id = fb from by simpa using hid]
        exact hvfb
      simp [this]
    · simp [hid]

/-- C2 amended witness: right after `fbX`'s successful login at time 0, the
check at time 20 (inside the 24-hour window) succeeds. -/
theorem C2_amended_witness :
    (authenticate_user initDB "fbX" "admin" "admin123" 0).1 = true ∧
    is_user_authenticated (authenticate_user initDB "fbX" "admin" "admin123" 0).2.2
      "fbX" 20 = true :=
  ⟨by decide,
   (C2_amended_session_validity initDB "fbX" "admin" "admin123" 0 (by decide)).1 20
     (by decide) (by decide)⟩

/-- C10 counterexample: in `dbXY` the sender `fbX` still holds an unexpired
session at time 20 and `admin` is a stored username, yet the input `[admin]`
is treated as a login attempt (the generic authentication prompt is
returned) and not dispatched as an item selection (no `set_item` record is
appended): with the users-table join broken, `is_user_authenticated` is
false, so the interpreter enters the login branch. -/
theorem C10_counterexample :
    dbXY.user_sessions.any (fun s => s.facebook_id == "fbX" && decide (20 < s.expires_at)) =
      true ∧
    dbXY.users.any (fun u => u.username == "admin") = true ∧
    (process_command dbXY defaultEnv "fbX" "[admin]" 20).reply =
      "Please authenticate first. Use [username] followed by [password] or use [help] for instructions." ∧
    (process_command dbXY defaultEnv "fbX" "[admin]" 20).db.command_logs.all
      (fun r => r.command != "set_item") = true := by
  refine ⟨by decide, by decide, by decide, by decide⟩

/-- C10 amended: while a sender is authenticated in the sense of
`is_user_authenticated` (an unexpired session whose external id is still
carried by some `users` row), no input is treated as a login attempt: the
`users` and `user_sessions` tables are unchanged by any input — so identity
rebinding and session issuance can only happen for a sender for whom
`is_user_authenticated` is false — and a bracketed token that is not a
dispatch keyword (such as a stored username) is logged as a `set_item`
command. -/
theorem C10_amended_no_login_when_authenticated (db : DB) (env : Env) (fb raw : String)
    (now : Nat) (hauth : is_user_authenticated db fb now = true) :
    (process_command db env fb raw now).db.users = db.users ∧
    (process_command db env fb raw now).db.user_sessions = db.user_sessions ∧
    (py_strip raw ≠ "[help]" →
      starts_with (py_strip raw) '[' = true →
      ends_with (py_strip raw) ']' = true →
      py_lower (inner_slice (py_strip raw)) ≠ "statistics" →
      py_lower (inner_slice (py_strip raw)) ≠ "add" →
      py_lower (inner_slice (py_strip raw)) ≠ "subtract" →
      py_lower (inner_slice (py_strip raw)) ≠ "count" →
      (process_command db env fb raw now).db.command_logs =
        db.command_logs ++
          [⟨fb, "set_item", some (py_lower (inner_slice (py_strip raw))), true, none, now⟩]) := by
  have h2 : ¬((starts_with (py_strip raw) '[' && ends_with (py_strip raw) ']'
      && !is_user_authenticated db fb now) = true) := by simp [hauth]
  have h3 : ¬((!is_user_authenticated db fb now) = true) := by simp [hauth]
  unfold process_command
  by_cases h1 : (py_strip raw == "[help]") = true
  · rw [if_pos h1]
    exact ⟨rfl, rfl, fun hne _ _ _ _ _ _ => absurd (beq_iff_eq.1 h1) hne⟩
  · rw [if_neg h1, if_neg h2, if_neg h3]
    by_cases hb : (starts_with (py_strip raw) '[' && ends_with (py_strip raw) ']') = true
    · rw [if_pos hb]
      by_cases hst : (py_lower (inner_slice (py_strip raw)) == "statistics") = true
      · rw [if_pos hst]
        by_cases hg : env.report_gen_ok = true
        · rw [if_pos hg]
          exact ⟨rfl, rfl, fun _ _ _ hns _ _ _ => absurd (beq_iff_eq.1 hst) hns⟩
        · rw [if_neg hg]
          exact ⟨rfl, rfl, fun _ _ _ hns _ _ _ => absurd (beq_iff_eq.1 hst) hns⟩
      · rw [if_neg hst]
        by_cases ha : (py_lower (inner_slice (py_strip raw)) == "add") = true
        · rw [if_pos ha]
          exact ⟨by simp [log_command_users, modify_item_count_users],
                 by simp [log_command_sessions, modify_item_count_sessions],
                 fun _ _ _ _ hna _ _ => absurd (beq_iff_eq.1 ha) hna⟩
        · rw [if_neg ha]
          by_cases hsu : (py_lower (inner_slice (py_strip raw)) == "subtract") = true
          · rw [if_pos hsu]
            exact ⟨by simp [log_command_users, modify_item_count_users],
                   by simp [log_command_sessions, modify_item_count_sessions],
                   fun _ _ _ _ _ hns _ => absurd (beq_iff_eq.1 hsu) hns⟩
          · rw [if_neg hsu]
            by_cases hco : (py_lower (inner_slice (py_strip raw)) == "count") = true
            · rw [if_pos hco]
              exact ⟨rfl, rfl, fun _ _ _ _ _ _ hnc => absurd (beq_iff_eq.1 hco) hnc⟩
            · rw [if_neg hco]
              exact ⟨rfl, rfl, fun _ _ _ _ _ _ _ => rfl⟩
    · rw [if_neg hb]
      refine ⟨rfl, rfl, fun _ hs he _ _ _ _ => ?_⟩
      rw [hs, he] at hb
      simp at hb

/-- C10 amended witness: in `dbX` the sender `fbX` is authenticated at time
20; the non-keyword token `[admin]` changes neither `users` nor
`user_sessions` and is logged as `set_item`. -/
theorem C10_witness :
    is_user_authenticated dbX "fbX" 20 = true ∧
    (process_command dbX defaultEnv "fbX" "[admin]" 20).db.users = dbX.users ∧
    (process_command dbX defaultEnv "fbX" "[admin]" 20).db.user_sessions = dbX.user_sessions ∧
    (process_command dbX defaultEnv "fbX" "[admin]" 20).db.command_logs =
      dbX.command_logs ++
        [⟨"fbX", "set_item", some (py_lower (inner_slice (py_strip "[admin]"))), true, none,
          20⟩] :=
  ⟨by decide,
   (C10_amended_no_login_when_authenticated dbX defaultEnv "fbX" "[admin]" 20 (by decide)).1,
   (C10_amended_no_login_when_authenticated dbX defaultEnv "fbX" "[admin]" 20 (by decide)).2.1,
   (C10_amended_no_login_when_authenticated dbX defaultEnv "fbX" "[admin]" 20 (by decide)).2.2
     (by decide) (by decide) (by decide) (by decide) (by decide) (by decide) (by decide)⟩

/-- C7: for every sender, authenticated or not, input that strips to
`[help]` is answered with the help text before any authentication check, and
the single appended AuditRecord is the `help` command with `success = true`
— never a failure. -/
theorem C7_help_always_answered (db : DB) (env : Env) (fb raw : String) (now : Nat)
    (h : py_strip raw = "[help]") :
    process_command db env fb raw now =
      ⟨helpText, log_command db fb "help" none true none now, [], [], []⟩ ∧
    (process_command db env fb raw now).db.command_logs =
      db.command_logs ++ [⟨fb, "help", none, true, none, now⟩] := by
  have h1 : (py_strip raw == "[help]") = true := beq_iff_eq.2 h
  constructor
  · unfold process_command
    simp only [h1, if_true]
  · unfold process_command
    simp only [h1, if_true]
    rfl

/-- C7 witness: `[help]` (with surrounding whitespace) on the fresh,
unauthenticated store. -/
theorem C7_witness :
    py_strip " [help] " = "[help]" ∧
    (process_command initDB defaultEnv "fbX" " [help] " 0 =
      ⟨helpText, log_command initDB "fbX" "help" none true none 0, [], [], []⟩ ∧
     (process_command initDB defaultEnv "fbX" " [help] " 0).db.command_logs =
       initDB.command_logs ++ [⟨"fbX", "help", none, true, none, 0⟩]) :=
  ⟨by decide, C7_help_always_answered initDB defaultEnv "fbX" " [help] " 0 (by decide)⟩

/-- Shape of a successful `authenticate_user` call: the success message is
returned and exactly one 24-hour session for the caller is appended. -/
theorem authenticate_user_success_shape (db : DB) (fb u p : String) (now : Nat)
    (h : (authenticate_user db fb u p now).1 = true) :
    (authenticate_user db fb u p now).2.1 = "Authentication successful" ∧
    (authenticate_user db fb u p now).2.2.user_sessions =
      db.user_sessions ++ [⟨fb, session_token_of fb now, now + SESSION_DURATION, now⟩] := by
  unfold authenticate_user at h ⊢
  cases hf : db.users.find? (fun v => v.username == u) with
  | none => rw [hf] at h; simp at h
  | some w =>
    rw [hf] at h
    by_cases hc : check_password_hash w.password_hash p
    · simp [hc]
    · simp [hc] at h

/-- A database used as an extra login scenario: the fresh store plus a user
`alice` whose stored hash was generated from the password `alice`. -/
def dbW : DB :=
  { initDB with users := initDB.users ++ [⟨"", "alice", generate_password_hash "alice", none⟩] }

/-- C3: for an authenticated sender, `[statistics]` (with report generation
succeeding) produces the report file, attempts its delivery, and appends the
`statistics` AuditRecord with `success = true` — for every value of
`env.delivery_ok`, so a delivery failure (the non-200 response that
`send_file` checks for) is never recorded as a statistics-command failure;
it surfaces only as a logger error line. -/
theorem C3_statistics_logs_success (db : DB) (env : Env) (fb : String) (now : Nat)
    (hauth : is_user_authenticated db fb now = true)
    (hgen : env.report_gen_ok = true) :
    process_command db env fb "[statistics]" now =
      ⟨"Statistics report generated and sent!",
       log_command db fb "statistics" none true none now,
       [report_filepath now], [(fb, report_filepath now)],
       if env.delivery_ok then []
       else ["Failed to send file: " ++ env.delivery_error_text]⟩ := by
  have h1 : ¬((py_strip "[statistics]" == "[help]") = true) := by decide
  have h2 : ¬((starts_with (py_strip "[statistics]") '[' && ends_with (py_strip "[statistics]") ']'
      && !is_user_authenticated db fb now) = true) := by simp [hauth]
  have h3 : ¬((!is_user_authenticated db fb now) = true) := by simp [hauth]
  have hb : (starts_with (py_strip "[statistics]") '[' && ends_with (py_strip "[statistics]") ']')
      = true := by decide
  have hst : (py_lower (inner_slice (py_strip "[statistics]")) == "statistics") = true := by
    decide
  unfold process_command
  rw [if_neg h1, if_neg h2, if_neg h3, if_pos hb, if_pos hst, if_pos hgen]
  rfl

/-- An environment in which report generation succeeds but the outbound
delivery POST fails (non-200). -/
def envFail : Env := ⟨true, "", false, "boom"⟩

/-- C3 witness: in `dbX` (authenticated `fbX`), with a failing delivery, the
statistics AuditRecord still records `success = true` and the failure
appears only as a logger error. -/
theorem C3_witness :
    is_user_authenticated dbX "fbX" 20 = true ∧
    envFail.report_gen_ok = true ∧
    process_command dbX envFail "fbX" "[statistics]" 20 =
      ⟨"Statistics report generated and sent!",
       log_command dbX "fbX" "statistics" none true none 20,
       [report_filepath 20], [("fbX", report_filepath 20)],
       if envFail.delivery_ok then []
       else ["Failed to send file: " ++ envFail.delivery_error_text]⟩ :=
  ⟨by decide, by decide,
   C3_statistics_logs_success dbX envFail "fbX" 20 (by decide) (by decide)⟩

/-- C4: for an unauthenticated sender, any stripped input that is a
bracketed group `[t]` other than `[help]` is dispatched to
`authenticate_user` with the content `t` used as BOTH the username and the
password; on success the login is logged, the success reply is returned and
one 24-hour session for the sender is appended; on failure, the generic
authentication prompt is returned. -/
theorem C4_single_token_login (db : DB) (env : Env) (fb raw : String) (now : Nat)
    (hne : py_strip raw ≠ "[help]")
    (hs : starts_with (py_strip raw) '[' = true)
    (he : ends_with (py_strip raw) ']' = true)
    (hunauth : is_user_authenticated db fb now = false) :
    process_command db env fb raw now =
      (if (authenticate_user db fb (inner_slice (py_strip raw))
             (inner_slice (py_strip raw)) now).1 then
        ⟨(authenticate_user db fb (inner_slice (py_strip raw))
            (inner_slice (py_strip raw)) now).2.1,
         log_command (authenticate_user db fb (inner_slice (py_strip raw))
             (inner_slice (py_strip raw)) now).2.2
           fb "login" (some (inner_slice (py_strip raw))) true none now, [], [], []⟩
      else
        ⟨"Please authenticate first. Use [username] followed by [password] or use [help] for instructions.",
         (authenticate_user db fb (inner_slice (py_strip raw))
            (inner_slice (py_strip raw)) now).2.2, [], [], []⟩) ∧
    ((authenticate_user db fb (inner_slice (py_strip raw))
        (inner_slice (py_strip raw)) now).1 = true →
      (process_command db env fb raw now).reply = "Authentication successful" ∧
      (process_command db env fb raw now).db.user_sessions =
        db.user_sessions ++ [⟨fb, session_token_of fb now, now + SESSION_DURATION, now⟩]) := by
  have h1 : ¬((py_strip raw == "[help]") = true) := by
    simpa using hne
  have h2 : (starts_with (py_strip raw) '[' && ends_with (py_strip raw) ']'
      && !is_user_authenticated db fb now) = true := by simp [hs, he, hunauth]
  constructor
  · unfold process_command
    rw [if_neg h1, if_pos h2]
  · intro hsucc
    have hshape := authenticate_user_success_shape db fb (inner_slice (py_strip raw))
      (inner_slice (py_strip raw)) now hsucc
    unfold process_command
    rw [if_neg h1, if_pos h2, if_pos hsucc]
    exact ⟨hshape.1, hshape.2⟩

/-- C4 witness: in `dbW` the unauthenticated sender `fbW` sends `[alice]`;
the single token logs in as username `alice` with password `alice`, a
session is issued and the success reply returned. -/
theorem C4_witness :
    is_user_authenticated dbW "fbW" 0 = false ∧
    (authenticate_user dbW "fbW" (inner_slice (py_strip "[alice]"))
      (inner_slice (py_strip "[alice]")) 0).1 = true ∧
    ((process_command dbW defaultEnv "fbW" "[alice]" 0).reply = "Authentication successful" ∧
     (process_command dbW defaultEnv "fbW" "[alice]" 0).db.user_sessions =
       dbW.user_sessions ++ [⟨"fbW", session_token_of "fbW" 0, 0 + SESSION_DURATION, 0⟩]) :=
  ⟨by decide, by decide,
   (C4_single_token_login dbW defaultEnv "fbW" "[alice]" 0 (by decide) (by decide)
     (by decide) (by decide)).2 (by decide)⟩

/-- The item-table effect of `modify_item_count` depends only on the items
table of its input. -/
theorem modify_item_count_items_congr (db₁ db₂ : DB) (id op : String) (a : Int) (now : Nat)
    (h : db₁.items = db₂.items) :
    (modify_item_count db₁ id op a now).2.2.2.items =
      (modify_item_count db₂ id op a now).2.2.2.items := by
  unfold modify_item_count
  rw [h]
  cases hf : db₂.items.find? (fun it => it.item_id == id) <;> simp

/-- For an authenticated sender, `[add]`, `[subtract]` and `[count]` always
target the key `default_item`. -/
theorem dispatch_targets_default_item (db : DB) (env : Env) (fb : String) (now : Nat)
    (hauth : is_user_authenticated db fb now = true) :
    (process_command db env fb "[add]" now).db.items =
      (modify_item_count db "default_item" "add" 1 now).2.2.2.items ∧
    (process_command db env fb "[subtract]" now).db.items =
      (modify_item_count db "default_item" "subtract" 1 now).2.2.2.items ∧
    (process_command db env fb "[count]" now).reply =
      "Current count for default_item: " ++ toString ((get_item_count db "default_item").getD 0) := by
  have h3 : ¬((!is_user_authenticated db fb now) = true) := by simp [hauth]
  refine ⟨?_, ?_, ?_⟩
  · have h1 : ¬((py_strip "[add]" == "[help]") = true) := by decide
    have h2 : ¬((starts_with (py_strip "[add]") '[' && ends_with (py_strip "[add]") ']'
        && !is_user_authenticated db fb now) = true) := by simp [hauth]
    have hb : (starts_with (py_strip "[add]") '[' && ends_with (py_strip "[add]") ']') = true := by
      decide
    have hst : ¬((py_lower (inner_slice (py_strip "[add]")) == "statistics") = true) := by decide
    have ha : (py_lower (inner_slice (py_strip "[add]")) == "add") = true := by decide
    unfold process_command
    rw [if_neg h1, if_neg h2, if_neg h3, if_pos hb, if_neg hst, if_pos ha]
    rfl
  · have h1 : ¬((py_strip "[subtract]" == "[help]") = true) := by decide
    have h2 : ¬((starts_with (py_strip "[subtract]") '[' && ends_with (py_strip "[subtract]") ']'
        && !is_user_authenticated db fb now) = true) := by simp [hauth]
    have hb : (starts_with (py_strip "[subtract]") '[' && ends_with (py_strip "[subtract]") ']')
        = true := by decide
    have hst : ¬((py_lower (inner_slice (py_strip "[subtract]")) == "statistics") = true) := by
      decide
    have ha : ¬((py_lower (inner_slice (py_strip "[subtract]")) == "add") = true) := by decide
    have hsu : (py_lower (inner_slice (py_strip "[subtract]")) == "subtract") = true := by decide
    unfold process_command
    rw [if_neg h1, if_neg h2, if_neg h3, if_pos hb, if_neg hst, if_neg ha, if_pos hsu]
    rfl
  · have h1 : ¬((py_strip "[count]" == "[help]") = true) := by decide
    have h2 : ¬((starts_with (py_strip "[count]") '[' && ends_with (py_strip "[count]") ']'
        && !is_user_authenticated db fb now) = true) := by simp [hauth]
    have hb : (starts_with (py_strip "[count]") '[' && ends_with (py_strip "[count]") ']')
        = true := by decide
    have hst : ¬((py_lower (inner_slice (py_strip "[count]")) == "statistics") = true) := by
      decide
    have ha : ¬((py_lower (inner_slice (py_strip "[count]")) == "add") = true) := by decide
    have hsu : ¬((py_lower (inner_slice (py_strip "[count]")) == "subtract") = true) := by decide
    have hco : (py_lower (inner_slice (py_strip "[count]")) == "count") = true := by decide
    unfold process_command
    rw [if_neg h1, if_neg h2, if_neg h3, if_pos hb, if_neg hst, if_neg ha, if_neg hsu,
        if_pos hco]

/-- C8: for an authenticated sender, a bracketed keyword other than
`statistics`, `add`, `subtract` and `count` only appends a `set_item`
AuditRecord and returns the selection reply: items, users and sessions are
unchanged (no selection state is persisted anywhere), and a subsequent
`[add]`, `[subtract]` or `[count]` still operates on the key `default_item`
of the original item table regardless of the 'selected' token. -/
theorem C8_selection_not_persisted (db : DB) (env : Env) (fb raw : String) (now : Nat)
    (hauth : is_user_authenticated db fb now = true)
    (hne : py_strip raw ≠ "[help]")
    (hs : starts_with (py_strip raw) '[' = true)
    (he : ends_with (py_strip raw) ']' = true)
    (hk1 : py_lower (inner_slice (py_strip raw)) ≠ "statistics")
    (hk2 : py_lower (inner_slice (py_strip raw)) ≠ "add")
    (hk3 : py_lower (inner_slice (py_strip raw)) ≠ "subtract")
    (hk4 : py_lower (inner_slice (py_strip raw)) ≠ "count") :
    process_command db env fb raw now =
      ⟨"Item \x27" ++ py_lower (inner_slice (py_strip raw)) ++
         "\x27 selected. Use [add], [subtract], or [count] to interact with it.",
       log_command db fb "set_item" (some (py_lower (inner_slice (py_strip raw)))) true none
         now, [], [], []⟩ ∧
    (process_command db env fb raw now).db.items = db.items ∧
    (process_command db env fb raw now).db.users = db.users ∧
    (process_command db env fb raw now).db.user_sessions = db.user_sessions ∧
    (process_command (process_command db env fb raw now).db env fb "[add]" now).db.items =
      (modify_item_count db "default_item" "add" 1 now).2.2.2.items ∧
    (process_command (process_command db env fb raw now).db env fb "[subtract]" now).db.items =
      (modify_item_count db "default_item" "subtract" 1 now).2.2.2.items ∧
    (process_command (process_command db env fb raw now).db env fb "[count]" now).reply =
      "Current count for default_item: " ++ toString ((get_item_count db "default_item").getD 0) := by
  have h1 : ¬((py_strip raw == "[help]") = true) := by simpa using hne
  have h2 : ¬((starts_with (py_strip raw) '[' && ends_with (py_strip raw) ']'
      && !is_user_authenticated db fb now) = true) := by simp [hauth]
  have h3 : ¬((!is_user_authenticated db fb now) = true) := by simp [hauth]
  have hb : (starts_with (py_strip raw) '[' && ends_with (py_strip raw) ']') = true := by
    simp [hs, he]
  have hst : ¬((py_lower (inner_slice (py_strip raw)) == "statistics") = true) := by
    simpa using hk1
  have ha : ¬((py_lower (inner_slice (py_strip raw)) == "add") = true) := by simpa using hk2
  have hsu : ¬((py_lower (inner_slice (py_strip raw)) == "subtract") = true) := by
    simpa using hk3
  have hco : ¬((py_lower (inner_slice (py_strip raw)) == "count") = true) := by simpa using hk4
  have hmain : process_command db env fb raw now =
      ⟨"Item \x27" ++ py_lower (inner_slice (py_strip raw)) ++
         "\x27 selected. Use [add], [subtract], or [count] to interact with it.",
       log_command db fb "set_item" (some (py_lower (inner_slice (py_strip raw)))) true none
         now, [], [], []⟩ := by
    unfold process_command
    rw [if_neg h1, if_neg h2, if_neg h3, if_pos hb, if_neg hst, if_neg ha, if_neg hsu,
        if_neg hco]
  have hauth2 : is_user_authenticated
      (log_command db fb "set_item" (some (py_lower (inner_slice (py_strip raw)))) true none
        now) fb now = true := by
    exact (is_user_authenticated_congr
      (log_command db fb "set_item" (some (py_lower (inner_slice (py_strip raw)))) true none
        now) db fb now rfl rfl).trans hauth
  have hnext := dispatch_targets_default_item
    (log_command db fb "set_item" (some (py_lower (inner_slice (py_strip raw)))) true none now)
    env fb now hauth2
  refine ⟨hmain, ?_, ?_, ?_, ?_, ?_, ?_⟩
  · rw [hmain]
    rfl
  · rw [hmain]
    rfl
  · rw [hmain]
    rfl
  · rw [hmain]
    rw [hnext.1]
    exact modify_item_count_items_congr _ db "default_item" "add" 1 now rfl
  · rw [hmain]
    rw [hnext.2.1]
    exact modify_item_count_items_congr _ db "default_item" "subtract" 1 now rfl
  · rw [hmain]
    exact hnext.2.2

/-- C8 witness: in `dbX` the authenticated sender `fbX` 'selects' `[mango]`;
no table but the audit log changes, and the follow-up commands still target
`default_item`. -/
theorem C8_witness :
    is_user_authenticated dbX "fbX" 20 = true ∧
    (process_command dbX defaultEnv "fbX" "[mango]" 20 =
      ⟨"Item \x27" ++ py_lower (inner_slice (py_strip "[mango]")) ++
         "\x27 selected. Use [add], [subtract], or [count] to interact with it.",
       log_command dbX "fbX" "set_item" (some (py_lower (inner_slice (py_strip "[mango]"))))
         true none 20, [], [], []⟩ ∧
     (process_command dbX defaultEnv "fbX" "[mango]" 20).db.items = dbX.items ∧
     (process_command dbX defaultEnv "fbX" "[mango]" 20).db.users = dbX.users ∧
     (process_command dbX defaultEnv "fbX" "[mango]" 20).db.user_sessions =
       dbX.user_sessions ∧
     (process_command (process_command dbX defaultEnv "fbX" "[mango]" 20).db defaultEnv "fbX"
         "[add]" 20).db.items =
       (modify_item_count dbX "default_item" "add" 1 20).2.2.2.items ∧
     (process_command (process_command dbX defaultEnv "fbX" "[mango]" 20).db defaultEnv "fbX"
         "[subtract]" 20).db.items =
       (modify_item_count dbX "default_item" "subtract" 1 20).2.2.2.items ∧
     (process_command (process_command dbX defaultEnv "fbX" "[mango]" 20).db defaultEnv "fbX"
         "[count]" 20).reply =
       "Current count for default_item: " ++
         toString ((get_item_count dbX "default_item").getD 0)) :=
  ⟨by decide,
   C8_selection_not_persisted dbX defaultEnv "fbX" "[mango]" 20 (by decide) (by decide)
     (by decide) (by decide) (by decide) (by decide) (by decide) (by decide)⟩

/-- C1 counterexample: the unauthenticated sender `fbX` sends `[nope]`; the
single-token login attempt fails and `process_command` returns the
authentication prompt WITHOUT appending any AuditRecord: the command log
stays empty instead of growing by exactly one. -/
theorem C1_counterexample :
    (process_command initDB defaultEnv "fbX" "[nope]" 0).db.command_logs = [] ∧
    initDB.command_logs = [] ∧
    (process_command initDB defaultEnv "fbX" "[nope]" 0).reply =
      "Please authenticate first. Use [username] followed by [password] or use [help] for instructions." := by
  refine ⟨by decide, by decide, by decide⟩

/-- C1 amended: one `process_command` call appends exactly one AuditRecord
when the input strips to `[help]`, or the sender is authenticated, or the
input is a bracketed token whose single-token login succeeds; in every other
case (an unauthenticated sender whose input is not bracketed, or whose
bracketed login attempt fails) it appends none. -/
theorem C1_amended_audit_count (db : DB) (env : Env) (fb raw : String) (now : Nat) :
    (process_command db env fb raw now).db.command_logs.length =
      db.command_logs.length +
        (if py_strip raw == "[help]" then 1
         else if is_user_authenticated db fb now then 1
         else if starts_with (py_strip raw) '[' && ends_with (py_strip raw) ']'
                 && (authenticate_user db fb (inner_slice (py_strip raw))
                       (inner_slice (py_strip raw)) now).1 then 1
         else 0) := by
  unfold process_command
  by_cases h1 : (py_strip raw == "[help]") = true
  · rw [if_pos h1, if_pos h1]
    simp [log_command]
  · rw [if_neg h1, if_neg h1]
    by_cases hA : is_user_authenticated db fb now = true
    · rw [if_pos hA]
      have h2 : ¬((starts_with (py_strip raw) '[' && ends_with (py_strip raw) ']'
          && !is_user_authenticated db fb now) = true) := by simp [hA]
      have h3 : ¬((!is_user_authenticated db fb now) = true) := by simp [hA]
      rw [if_neg h2, if_neg h3]
      by_cases hb : (starts_with (py_strip raw) '[' && ends_with (py_strip raw) ']') = true
      · rw [if_pos hb]
        by_cases hst : (py_lower (inner_slice (py_strip raw)) == "statistics") = true
        · rw [if_pos hst]
          by_cases hg : env.report_gen_ok = true
          · rw [if_pos hg]
            simp [log_command]
          · rw [if_neg hg]
            simp [log_command]
        · rw [if_neg hst]
          by_cases ha2 : (py_lower (inner_slice (py_strip raw)) == "add") = true
          · rw [if_pos ha2]
            simp [log_command, modify_item_count_logs]
          · rw [if_neg ha2]
            by_cases hsu : (py_lower (inner_slice (py_strip raw)) == "subtract") = true
            · rw [if_pos hsu]
              simp [log_command, modify_item_count_logs]
            · rw [if_neg hsu]
              by_cases hco : (py_lower (inner_slice (py_strip raw)) == "count") = true
              · rw [if_pos hco]
                simp [log_command]
              · rw [if_neg hco]
                simp [log_command]
      · rw [if_neg hb]
        simp [log_command]
    · rw [if_neg hA]
      have hA' : is_user_authenticated db fb now = false := by
        simpa using hA
      by_cases hb : (starts_with (py_strip raw) '[' && ends_with (py_strip raw) ']') = true
      · have h2 : (starts_with (py_strip raw) '[' && ends_with (py_strip raw) ']'
            && !is_user_authenticated db fb now) = true := by
          simp only [hA', Bool.not_false, Bool.and_true]
          exact hb
        rw [if_pos h2]
        by_cases hsucc : (authenticate_user db fb (inner_slice (py_strip raw))
            (inner_slice (py_strip raw)) now).1 = true
        · rw [if_pos hsucc]
          have hr : (starts_with (py_strip raw) '[' && ends_with (py_strip raw) ']'
              && (authenticate_user db fb (inner_slice (py_strip raw))
                    (inner_slice (py_strip raw)) now).1) = true := by
            simp only [hsucc, Bool.and_true]
            exact hb
          rw [if_pos hr]
          simp [log_command, authenticate_user_logs]
        · rw [if_neg hsucc]
          have hr : ¬((starts_with (py_strip raw) '[' && ends_with (py_strip raw) ']'
              && (authenticate_user db fb (inner_slice (py_strip raw))
                    (inner_slice (py_strip raw)) now).1) = true) := by
            simp only [Bool.and_eq_true]
            rintro ⟨-, hcon⟩
            exact hsucc hcon
          rw [if_neg hr]
          simp [authenticate_user_logs]
      · have h2 : ¬((starts_with (py_strip raw) '[' && ends_with (py_strip raw) ']'
            && !is_user_authenticated db fb now) = true) := by
          simp only [Bool.and_eq_true]
          rintro ⟨hcon, -⟩
          exact hb (by simp [Bool.and_eq_true, hcon])
        have h3 : (!is_user_authenticated db fb now) = true := by
          rw [hA']
          rfl
        rw [if_neg h2, if_pos h3]
        have hr : ¬((starts_with (py_strip raw) '[' && ends_with (py_strip raw) ']'
            && (authenticate_user db fb (inner_slice (py_strip raw))
                  (inner_slice (py_strip raw)) now).1) = true) := by
          simp only [Bool.and_eq_true]
          rintro ⟨hcon, -⟩
          exact hb (by simp [Bool.and_eq_true, hcon])
        rw [if_neg hr]
        simp

end KitaKits
